import Mathlib

/-!
Verification of the sequence_viewer repository core against its
natural-language specification.

The Python sources are shallowly embedded below.  Python floats are
modelled as exact rationals (ℚ), Python ints as ℤ or ℕ.  Each embedded
definition mirrors one function of the repository; the doc comment names
the source location.
-/

set_option linter.unusedVariables false

/-- Display mode of a sequence row.  Source:
`graphics/sequence_item/sequence_item_model.py` constants
`TEXT_MODE / BOX_MODE / LINE_MODE` (represented as a closed enum). -/
inductive Mode where
  | text
  | box
  | line
deriving DecidableEq

/-- Rank of a display mode.  Source: `SequenceItemModel._mode_order`
(text ↦ 0, box ↦ 1, line ↦ 2; larger = coarser). -/
def mode_order : Mode → ℕ
  | Mode.text => 0
  | Mode.box => 1
  | Mode.line => 2

/-- Font-size snapping of `SequenceItemModel._update_display_state`
(`graphics/sequence_item/sequence_item_model.py`): the default width is
replaced by `12.0` when non-positive, both widths are floored at `0.001`,
and the scale is mapped through the 1.8 / 1.2 / 0.7 tiers. -/
def snapped_font_size (char_width default_char_width base_font_size : ℚ) : ℚ :=
  let default2 : ℚ := if default_char_width ≤ 0 then 12 else default_char_width
  let cw : ℚ := max char_width (1/1000)
  let base_cw : ℚ := max default2 (1/1000)
  let scale : ℚ := cw / base_cw
  if 9/5 ≤ scale then 12
  else if 6/5 ≤ scale then 10
  else if 7/10 ≤ scale then 8
  else max 1 (base_font_size * scale)

/-- Display-mode selection from the current font size, with the
`_TEXT_BOX_THRESHOLD = 8.0` and `_BOX_LINE_THRESHOLD = 5.0` constants of
`SequenceItemModel._update_display_state`. -/
def mode_of_font_size (size : ℚ) : Mode :=
  if 8 ≤ size then Mode.text
  else if 5 ≤ size then Mode.box
  else Mode.line

/-- Source: `SequenceItemModel.get_effective_mode` — applies the
optional LOD maximum-mode override to the zoom-derived base mode. -/
def get_effective_mode (base_mode : Mode) (lod_max_mode : Option Mode) : Mode :=
  match lod_max_mode with
  | none => base_mode
  | some m => if mode_order base_mode < mode_order m then m else base_mode

/-- State of `SequenceViewerModel`
(`sequence_viewer/sequence_viewer_model.py`). -/
structure SVModel where
  sequences : List String
  max_sequence_length : ℤ
  selection_start_row : Option ℤ
  selection_start_col : Option ℤ
  current_selection_cols : Option (ℤ × ℤ)
deriving DecidableEq

/-- Source: `SequenceViewerModel.__init__`. -/
def init_model : SVModel :=
  { sequences := []
    max_sequence_length := 0
    selection_start_row := none
    selection_start_col := none
    current_selection_cols := none }

/-- Source: `SequenceViewerModel.get_row_count`. -/
def row_count (m : SVModel) : ℤ := m.sequences.length

/-- Source: `SequenceViewerModel.clear_selection`. -/
def clear_selection (m : SVModel) : SVModel :=
  { m with
    selection_start_row := none
    selection_start_col := none
    current_selection_cols := none }

/-- Source: `SequenceViewerModel.clear_sequences`. -/
def clear_sequences (m : SVModel) : SVModel :=
  clear_selection { m with sequences := [], max_sequence_length := 0 }

/-- Source: `SequenceViewerModel.add_sequence` — appends the row, updates
the cached maximum length, and returns the new row count minus one. -/
def add_sequence (s : String) (m : SVModel) : ℤ × SVModel :=
  (((m.sequences ++ [s]).length : ℤ) - 1,
   { m with
     sequences := m.sequences ++ [s]
     max_sequence_length :=
       if m.max_sequence_length < (s.length : ℤ) then (s.length : ℤ)
       else m.max_sequence_length })

/-- Source: `SequenceViewerModel.start_selection`. -/
def start_selection (row col : ℤ) (m : SVModel) : Bool × SVModel :=
  if row_count m = 0 then (false, clear_selection m)
  else if row < 0 ∨ row_count m ≤ row ∨ col < 0 then (false, clear_selection m)
  else (true, { m with selection_start_row := some row, selection_start_col := some col })

/-- Source: `SequenceViewerModel._clamp_column_index`. -/
def clamp_column_index (m : SVModel) (col : ℤ) : Option ℤ :=
  if m.max_sequence_length ≤ 0 then none
  else some (max 0 (min col (m.max_sequence_length - 1)))

/-- Source: `SequenceViewerModel.update_selection`. -/
def update_selection (current_row current_col : ℤ) (m : SVModel) :
    Option (ℤ × ℤ × ℤ × ℤ) × SVModel :=
  match m.selection_start_row, m.selection_start_col with
  | some start_row, some start_col =>
    match clamp_column_index m start_col, clamp_column_index m current_col with
    | some clamped_start_col, some clamped_current_col =>
      if row_count m = 0 then (none, clear_selection m)
      else
        let rs : ℤ := max 0 (min start_row current_row)
        let re : ℤ := min (row_count m - 1) (max start_row current_row)
        let cs : ℤ := min clamped_start_col clamped_current_col
        let ce : ℤ := max clamped_start_col clamped_current_col
        (some (rs, re, cs, ce),
         if 0 ≤ cs ∧ 0 ≤ ce then { m with current_selection_cols := some (cs, ce) }
         else { m with current_selection_cols := none })
    | _, _ => (none, clear_selection m)
  | _, _ => (none, m)

/-- Operations that mutate the stored rows: `add_sequence` and
`clear_sequences`. -/
inductive SeqOp where
  | add (s : String)
  | clear

/-- One sequence-store mutation. -/
def run_op (m : SVModel) : SeqOp → SVModel
  | SeqOp.add s => (add_sequence s m).2
  | SeqOp.clear => clear_sequences m

/-- A whole history of sequence-store mutations, run from left to right. -/
def run_ops (ops : List SeqOp) (m : SVModel) : SVModel := ops.foldl run_op m

/-- Maximum of the lengths of the stored rows (0 for an empty store). -/
def max_len_of (l : List String) : ℤ :=
  l.foldr (fun s acc => max (s.length : ℤ) acc) 0

/-- Fuelled base-10 floor logarithm on ℕ (structural recursion so that the
kernel can evaluate it). -/
def nat_log10_fuel : ℕ → ℕ → ℕ
  | 0, _ => 0
  | fuel + 1, n => if n < 10 then 0 else nat_log10_fuel fuel (n / 10) + 1

/-- Base-10 floor logarithm on ℕ. -/
def nat_log10 (n : ℕ) : ℕ := nat_log10_fuel n n

/-- Model of Python `int(math.floor(math.log10(q)))` for a positive
rational.  Only the branch for `1 ≤ q` is exercised by the repository
paths verified here. -/
def rat_floor_log10 (q : ℚ) : ℤ :=
  if 1 ≤ q then (nat_log10 ⌊q⌋.toNat : ℤ)
  else -(Nat.clog 10 ⌈1/q⌉.toNat : ℤ)

/-- Source: `PositionRulerModel._round_to_nice_large`
(`features/position_ruler/position_ruler_model.py`) — the 100K / 200K /
500K / 1M / 2M / 5M / … ladder used for spans of one million and more. -/
def round_to_nice_large (step : ℤ) : ℤ :=
  if step < 100000 then 100000
  else if step ≤ 200000 then 200000
  else if step ≤ 500000 then 500000
  else if step ≤ 1000000 then 1000000
  else if step ≤ 2000000 then 2000000
  else if step ≤ 5000000 then 5000000
  else if step / 10 ^ nat_log10 step.toNat ≤ 2 then 2 * 10 ^ nat_log10 step.toNat
  else if step / 10 ^ nat_log10 step.toNat ≤ 5 then 5 * 10 ^ nat_log10 step.toNat
  else 10 * 10 ^ nat_log10 step.toNat

/-- Snap of `base = raw_step / power` to 1, 2, 5 or 10 inside
`PositionRulerModel._choose_step_for_zoom`. -/
def snap_nice (base : ℚ) : ℤ :=
  if base ≤ 3/2 then 1
  else if base ≤ 3 then 2
  else if base ≤ 7 then 5
  else 10

/-- The `candidate = int(nice * power)` stage of
`PositionRulerModel._choose_step_for_zoom` (reached only when
`raw_step > 1`, so the exponent is non-negative). -/
def raw_candidate (visible_span : ℤ) : ℤ :=
  snap_nice (((visible_span : ℚ) / 10) /
      ((10 : ℤ) ^ (rat_floor_log10 ((visible_span : ℚ) / 10)).toNat : ℚ)) *
    10 ^ (rat_floor_log10 ((visible_span : ℚ) / 10)).toNat

/-- The special-case block of `PositionRulerModel._choose_step_for_zoom`:
ladder for spans ≥ 1M, 10K floor for spans in [100K, 1M), cap at 10 for
spans ≤ 100. -/
def apply_span_overrides (visible_span candidate : ℤ) : ℤ :=
  if 1000000 ≤ visible_span then round_to_nice_large candidate
  else if 100000 ≤ visible_span then max candidate 10000
  else if visible_span ≤ 100 then min candidate 10
  else candidate

/-- Source: `PositionRulerModel._choose_step_for_zoom`.  The `char_width`
parameter of the Python function is unused there and omitted here. -/
def choose_step_for_zoom (visible_span : ℤ) : ℤ :=
  if visible_span ≤ 0 then 1
  else if (visible_span : ℚ) / 10 ≤ 1 then 1
  else max (apply_span_overrides visible_span (raw_candidate visible_span)) 1

/-- Modelled from the spec: the tick-step algorithm the specification
describes as shared by both ruler flavors — `raw_step = visible_span/10`,
step 1 when `raw_step ≤ 1`, otherwise the base snapped at thresholds
≤1.5 → 1, ≤3 → 2, ≤7 → 5, else 10, times the power of ten, followed by the
large-span ladder, the 10K floor and the ≤100 cap, never less than 1. -/
def choose_step_spec (visible_span : ℤ) : ℤ :=
  if visible_span ≤ 0 then 1
  else if (visible_span : ℚ) / 10 ≤ 1 then 1
  else max (apply_span_overrides visible_span (raw_candidate visible_span)) 1

/-- Source: `NavigationRulerModel._nice_tick_step`
(`navigation_ruler_model/navigation_ruler_model.py`).  Note the different
raw step (`max_nt * target_px / pixel_width`), the different snapping
thresholds (≤1 → 1, ≤2 → 2, ≤5 → 5, else 10) and the absence of any
special-case override. -/
def nice_tick_step (max_nt pixel_width target_px : ℤ) : ℤ :=
  if max_nt ≤ 0 ∨ pixel_width ≤ 0 then (if 0 < max_nt then max_nt else 1)
  else
    let raw_step : ℚ := ((max_nt * target_px : ℤ) : ℚ) / (pixel_width : ℚ)
    if raw_step ≤ 0 then 1
    else
      let k : ℤ := rat_floor_log10 raw_step
      let power : ℚ :=
        if 0 ≤ k then (((10 : ℤ) ^ k.toNat : ℤ) : ℚ)
        else 1 / (((10 : ℤ) ^ (-k).toNat : ℤ) : ℚ)
      let base : ℚ := raw_step / power
      let nice : ℚ := if base ≤ 1 then 1 else if base ≤ 2 then 2 else if base ≤ 5 then 5 else 10
      ⌊nice * power⌋

/-- The major-tick generation loop of
`NavigationRulerModel.compute_tick_layout`: multiples of `step` from 0
while they do not exceed `max_nt`. -/
def major_ticks_raw (max_nt step : ℕ) : List ℕ :=
  (List.range (max_nt / step + 1)).map (fun k => k * step)

/-- The endpoint fix-up of `NavigationRulerModel.compute_tick_layout`:
if the last generated tick is within half a step of the content end it is
replaced by the end, otherwise the end is appended. -/
def compute_major_ticks (max_nt step : ℕ) : List ℕ :=
  match (major_ticks_raw max_nt step).getLast? with
  | none => major_ticks_raw max_nt step
  | some last =>
    if max_nt - last = 0 then major_ticks_raw max_nt step
    else if 2 * (max_nt - last) < step then
      (major_ticks_raw max_nt step).dropLast ++ [max_nt]
    else major_ticks_raw max_nt step ++ [max_nt]

/-- The view-side environment read by
`SequenceViewerController.handle_wheel_event`
(`features/sequence_viewer/sequence_viewer_controller.py`):
`has_items` stands for `view.sequence_items` being non-empty,
`current_char_width` for `view.current_char_width()`, `char_width` for
`view.char_width`, `selection_center` for
`model.get_selection_center_nt()`, `scroll_value` for the horizontal
scrollbar value, and `display_mode` for the first item display mode. -/
structure WheelEnv where
  has_items : Bool
  viewport_width : ℚ
  current_char_width : ℚ
  char_width : ℚ
  selection_center : Option ℚ
  scroll_value : ℚ
  max_sequence_length : ℤ
  display_mode : Mode
deriving DecidableEq

/-- Streak state of the controller: `_wheel_zoom_streak_dir` and
`_wheel_zoom_streak_len`. -/
structure WheelState where
  streak_dir : Option ℤ
  streak_len : ℤ
deriving DecidableEq

/-- A zoom animation request (`view.start_zoom_animation` arguments). -/
structure ZoomRequest where
  target_char_width : ℚ
  center_nt : ℚ
  view_width_px : ℚ
deriving DecidableEq

/-- Source: `SequenceViewerView._current_trailing_padding`
(`sequence_viewer/sequence_viewer_view.py`): 80 px in Line mode,
30 px otherwise (and 30 px without items). -/
def current_trailing_padding_env (env : WheelEnv) : ℚ :=
  if env.has_items = false then 30
  else if env.display_mode = Mode.line then 80
  else 30

/-- Source: `SequenceViewerView.compute_min_char_width`. -/
def compute_min_char_width (env : WheelEnv) : ℚ :=
  if env.has_items = false then env.char_width
  else if env.max_sequence_length ≤ 0 then env.char_width
  else if env.viewport_width ≤ 0 then env.char_width
  else
    if env.viewport_width - max 80 (current_trailing_padding_env env) ≤ 0 then 1/1000000
    else max ((env.viewport_width - max 80 (current_trailing_padding_env env)) /
          (env.max_sequence_length : ℚ)) (1/1000000)

/-- The pivot nt computed by `handle_wheel_event`: the selection center
when a selection exists, else the content position under the pointer. -/
def wheel_center (env : WheelEnv) (cursor_x : ℚ) : ℚ :=
  match env.selection_center with
  | some c => c
  | none =>
    (env.scroll_value + cursor_x) /
      (if env.current_char_width ≤ 0 then max env.char_width (1/1000)
       else env.current_char_width)

/-- Source: `SequenceViewerController.handle_wheel_event`.  Returns the
new streak state, whether the event was consumed, and the zoom request
passed to `start_zoom_animation` (if any).  The source computes
`steps = delta/120.0` and raises the per-notch factor to `abs(steps)`;
the embedding covers whole notches, where that exponent is
`delta.natAbs / 120`. -/
def handle_wheel_event (env : WheelEnv) (st : WheelState)
    (ctrl_held : Bool) (delta : ℤ) (cursor_x : ℚ) :
    WheelState × Bool × Option ZoomRequest :=
  if ctrl_held = false then (st, false, none)
  else if delta = 0 ∨ env.has_items = false then (st, true, none)
  else
    let direction : ℤ := if 0 < delta then 1 else -1
    let st2 : WheelState :=
      if st.streak_dir = some direction then
        { streak_dir := st.streak_dir, streak_len := st.streak_len + 1 }
      else { streak_dir := some direction, streak_len := 1 }
    if env.viewport_width ≤ 0 then (st2, true, none)
    else
      let current_cw : ℚ :=
        if env.current_char_width ≤ 0 then max env.char_width (1/1000)
        else env.current_char_width
      let streak_boost : ℚ := (106/100) ^ (max 0 (st2.streak_len - 1)).toNat
      let per_step_factor : ℚ := (122/100) * streak_boost
      let magnitude_factor : ℚ := per_step_factor ^ (delta.natAbs / 120)
      let factor : ℚ := if 0 < direction then magnitude_factor else 1 / magnitude_factor
      let target_cw : ℚ :=
        max (compute_min_char_width env) (min (current_cw * factor) 90)
      if |target_cw - current_cw| < 1/10000 then (st2, true, none)
      else (st2, true, some
        { target_char_width := target_cw
          center_nt := wheel_center env cursor_x
          view_width_px := env.viewport_width })

/-- Source: `SequenceViewerView.wheelEvent` — the event falls through to
the default scroll handling exactly when the controller does not consume
it. -/
def wheel_event_forwarded (env : WheelEnv) (st : WheelState)
    (ctrl_held : Bool) (delta : ℤ) (cursor_x : ℚ) : Bool :=
  !(handle_wheel_event env st ctrl_held delta cursor_x).2.1

/-- Modelled from the claim formula: the clamp floor
`max((viewport_px − trailing_padding_px) / max_content_length, 1e-6)`
with `trailing_padding_px` the larger of the Line-mode pad and the
current-mode pad. -/
def claimed_min_char_width (env : WheelEnv) : ℚ :=
  max ((env.viewport_width - max 80 (current_trailing_padding_env env)) /
      (env.max_sequence_length : ℚ)) (1/1000000)

/-- Modelled from the claim formula: the target char width
`current × (1.22 × 1.06^(k−1))^|steps|` (reciprocal when zooming out),
clamped into `[min_char_width, 90]`, for streak length `k` and `n`
notches (`n < 0` = zoom out). -/
def claimed_wheel_target (env : WheelEnv) (k n : ℤ) : ℚ :=
  max (claimed_min_char_width env)
    (min (env.current_char_width *
        (if 0 < n then ((122/100) * (106/100) ^ (k - 1).toNat) ^ n.natAbs
         else 1 / ((122/100) * (106/100) ^ (k - 1).toNat) ^ n.natAbs)) 90)

/-- State of `SequenceViewerView` relevant to zoom geometry
(`sequence_viewer/sequence_viewer_view.py`): the applied `char_width`,
the horizontal scroll value, the cached longest-row length, the display
mode of the items (all rows share it), and the item parameters
`default_char_width` / `base_font_size` that drive the LOD update
performed by `item.set_char_width`. -/
structure ViewState where
  char_width : ℚ
  scroll : ℤ
  max_sequence_length : ℤ
  display_mode : Mode
  has_items : Bool
  default_char_width : ℚ
  base_font_size : ℚ
deriving DecidableEq

/-- Trailing padding of the view, per
`SequenceViewerView._current_trailing_padding`. -/
def trailing_padding_of (st : ViewState) : ℚ :=
  if st.has_items = false then 30
  else if st.display_mode = Mode.line then 80
  else 30

/-- Scene width per `SequenceViewerView._update_scene_rect`:
`max_len * char_width + trailing_padding` (0 without items). -/
def scene_width (st : ViewState) : ℚ :=
  if st.has_items = false then 0
  else (st.max_sequence_length : ℚ) * st.char_width + trailing_padding_of st

/-- Python `round()` (banker rounding: ties go to the even integer),
as used by `_recenter_horizontally` for the scrollbar value. -/
def py_round (q : ℚ) : ℤ :=
  if q - ⌊q⌋ = 1/2 then (if 2 ∣ ⌊q⌋ then ⌊q⌋ else ⌊q⌋ + 1)
  else round q

/-- Source: `SequenceViewerView._recenter_horizontally` — the new
horizontal scrollbar value after re-centering `center_nt`.  During a zoom
animation the effective char width read by the source equals the width
just applied, i.e. `st.char_width` here. -/
def recenter_scroll (st : ViewState) (center_nt view_width_px : ℚ) : ℤ :=
  if view_width_px ≤ 0 then st.scroll
  else if scene_width st ≤ 0 then st.scroll
  else
    let c : ℚ :=
      if 0 < st.max_sequence_length then
        max 0 (min center_nt (st.max_sequence_length : ℚ))
      else center_nt
    let ideal_left : ℚ :=
      max 0 (min (c * st.char_width - view_width_px / 2)
        (max 0 (scene_width st - view_width_px)))
    if |ideal_left - (st.scroll : ℚ)| < 1/2 then st.scroll
    else py_round ideal_left

/-- Source: `SequenceViewerView.apply_char_width` — applies a new char
width to the items (clamped at 0.001 by `item.set_char_width`, which also
refreshes the display mode), stores it, recomputes the scene rect and
re-centers around the pivot when one is given. -/
def apply_char_width (st : ViewState) (new_char_width : ℚ)
    (center_nt : Option ℚ) (view_width_px : ℚ) : ViewState :=
  if |new_char_width - st.char_width| < 1/10000 ∧ center_nt = none then st
  else
    let applied : ℚ :=
      if st.has_items = true then max new_char_width (1/1000) else new_char_width
    let mode2 : Mode :=
      if st.has_items = true then
        mode_of_font_size (snapped_font_size applied st.default_char_width st.base_font_size)
      else st.display_mode
    let st1 : ViewState := { st with char_width := applied, display_mode := mode2 }
    match center_nt with
    | none => st1
    | some c => { st1 with scroll := recenter_scroll st1 c view_width_px }

/-- Screen x-coordinate (viewport pixel) of content position `nt`. -/
def screen_x (st : ViewState) (nt : ℚ) : ℚ :=
  nt * st.char_width - (st.scroll : ℚ)

/-- C7: with an override set, the effective display mode is the coarser
of the base mode and the override under the rank Text > Box > Line (it is
one of the two and its rank is the maximum of the two ranks, so it is
never finer than the zoom-derived base mode); with no override the
effective mode is the base mode. -/
theorem c7_lod_override (base_mode ovr b : Mode) :
    mode_order (get_effective_mode base_mode (some ovr)) =
      max (mode_order base_mode) (mode_order ovr) ∧
    (get_effective_mode base_mode (some ovr) = base_mode ∨
      get_effective_mode base_mode (some ovr) = ovr) ∧
    get_effective_mode b none = b := by
  cases base_mode <;> cases ovr <;> cases b <;> decide

/-- C9: a wheel event without the zoom modifier is not consumed by the
zoom handler: the handler reports it unhandled, emits no zoom request,
leaves the streak state unchanged, and the view forwards the event to the
default scroll handling. -/
theorem c9_wheel_no_modifier (env : WheelEnv) (st : WheelState)
    (delta : ℤ) (cursor_x : ℚ) :
    handle_wheel_event env st false delta cursor_x = (st, false, none) ∧
    wheel_event_forwarded env st false delta cursor_x = true :=
  ⟨rfl, rfl⟩

/-- C6: start_selection succeeds exactly when the content has at least
one row, the row is in range and the column is non-negative; on success
it records the anchor, and in every failing case it clears any existing
selection (and, being a total function, does not raise). -/
theorem c6_start_selection (m : SVModel) (row col : ℤ) :
    ((start_selection row col m).1 = true ↔
      1 ≤ row_count m ∧ 0 ≤ row ∧ row < row_count m ∧ 0 ≤ col) ∧
    ((start_selection row col m).1 = true →
      (start_selection row col m).2.selection_start_row = some row ∧
      (start_selection row col m).2.selection_start_col = some col) ∧
    ((start_selection row col m).1 = false →
      (start_selection row col m).2 = clear_selection m) := by
  have hnn : 0 ≤ row_count m := Int.natCast_nonneg _
  unfold start_selection
  split_ifs with h1 h2 <;>
    refine ⟨?_, ?_, ?_⟩ <;> simp_all <;> omega

/-- Folding the length-max over a list with a non-negative seed. -/
lemma max_len_of_foldr (l : List String) :
    ∀ a : ℤ, 0 ≤ a →
      l.foldr (fun s acc => max (s.length : ℤ) acc) a = max (max_len_of l) a := by
  induction l with
  | nil => intro a ha; simp [max_len_of]; omega
  | cons x xs ih =>
    intro a ha
    simp only [List.foldr_cons, max_len_of] at *
    rw [ih a ha]
    omega

/-- The cached maximum over an appended row. -/
lemma max_len_of_append (l : List String) (s : String) :
    max_len_of (l ++ [s]) = max (max_len_of l) (s.length : ℤ) := by
  rw [max_len_of, List.foldr_append]
  have h1 : ([s].foldr (fun t acc => max (t.length : ℤ) acc) 0) = (s.length : ℤ) := by
    simp
  rw [show ([s] : List String).foldr (fun t acc => max (t.length : ℤ) acc) 0 =
      max ((s.length : ℤ)) 0 by simp]
  rw [show max ((s.length : ℤ)) 0 = (s.length : ℤ) by
    have := Int.natCast_nonneg s.length; omega]
  exact max_len_of_foldr l _ (Int.natCast_nonneg _)

/-- The longest-row cache is preserved by every store mutation. -/
lemma run_op_cache (m : SVModel) (op : SeqOp)
    (h : m.max_sequence_length = max_len_of m.sequences) :
    (run_op m op).max_sequence_length = max_len_of (run_op m op).sequences := by
  cases op with
  | add s =>
    simp only [run_op, add_sequence]
    rw [max_len_of_append, h]
    split_ifs <;> omega
  | clear =>
    simp [run_op, clear_sequences, clear_selection, max_len_of]

/-- The longest-row cache holds after any history of mutations. -/
lemma run_ops_cache (ops : List SeqOp) :
    ∀ m : SVModel, m.max_sequence_length = max_len_of m.sequences →
      (run_ops ops m).max_sequence_length = max_len_of (run_ops ops m).sequences := by
  induction ops with
  | nil => intro m h; simpa [run_ops] using h
  | cons op rest ih =>
    intro m h
    simpa [run_ops] using ih (run_op m op) (run_op_cache m op h)

/-- C10: after any sequence of add_sequence / clear_sequences calls
starting from the fresh model, the cached max_sequence_length equals the
maximum of the stored row lengths (0 when empty), and add_sequence
returns the row index of the appended row, i.e. the previous row
count. -/
theorem c10_longest_row (ops : List SeqOp) :
    (run_ops ops init_model).max_sequence_length =
      max_len_of (run_ops ops init_model).sequences ∧
    ∀ s : String,
      (add_sequence s (run_ops ops init_model)).1 =
        ((run_ops ops init_model).sequences.length : ℤ) := by
  constructor
  · exact run_ops_cache ops init_model (by simp [init_model, max_len_of])
  · intro s
    simp [add_sequence]

/-- C3: for every char width and base (default) char width at or above
the 0.001 floor the source clamps them to, with scale = char_width /
base_char_width, the snapped font size is 12 for scale ≥ 1.8, 10 for
1.2 ≤ scale < 1.8, 8 for 0.7 ≤ scale < 1.2, and max(1, base_font_size ×
scale) otherwise; and the mode derived from a font size is Text iff the
size is ≥ 8, Box iff it is in [5, 8), and Line otherwise. -/
theorem c3_lod_policy (char_width default_char_width base_font_size : ℚ)
    (h1 : 1/1000 ≤ char_width) (h2 : 1/1000 ≤ default_char_width) :
    ((9/5 ≤ char_width / default_char_width →
        snapped_font_size char_width default_char_width base_font_size = 12) ∧
     (6/5 ≤ char_width / default_char_width ∧ char_width / default_char_width < 9/5 →
        snapped_font_size char_width default_char_width base_font_size = 10) ∧
     (7/10 ≤ char_width / default_char_width ∧ char_width / default_char_width < 6/5 →
        snapped_font_size char_width default_char_width base_font_size = 8) ∧
     (char_width / default_char_width < 7/10 →
        snapped_font_size char_width default_char_width base_font_size =
          max 1 (base_font_size * (char_width / default_char_width)))) ∧
    (∀ size : ℚ,
      (mode_of_font_size size = Mode.text ↔ 8 ≤ size) ∧
      (mode_of_font_size size = Mode.box ↔ 5 ≤ size ∧ size < 8) ∧
      (mode_of_font_size size = Mode.line ↔ size < 5)) := by
  have hd : ¬ default_char_width ≤ 0 := by linarith
  have e1 : max char_width (1/1000) = char_width := max_eq_left h1
  have e2 : max default_char_width (1/1000) = default_char_width := max_eq_left h2
  have key : snapped_font_size char_width default_char_width base_font_size =
      (if 9/5 ≤ char_width / default_char_width then (12:ℚ)
       else if 6/5 ≤ char_width / default_char_width then 10
       else if 7/10 ≤ char_width / default_char_width then 8
       else max 1 (base_font_size * (char_width / default_char_width))) := by
    simp only [snapped_font_size, if_neg hd, e1, e2]
  constructor
  · rw [key]
    refine ⟨?_, ?_, ?_, ?_⟩ <;> intro h <;> split_ifs <;> first | rfl | linarith
  · intro size
    unfold mode_of_font_size
    split_ifs with hA hB
    · exact ⟨⟨fun _ => hA, fun _ => rfl⟩,
        ⟨fun h => absurd h (by decide), fun h => absurd hA (not_le.mpr h.2)⟩,
        ⟨fun h => absurd h (by decide), fun h => absurd hA (not_le.mpr (by linarith))⟩⟩
    · exact ⟨⟨fun h => absurd h (by decide), fun h => absurd h hA⟩,
        ⟨fun _ => ⟨hB, not_le.mp hA⟩, fun _ => rfl⟩,
        ⟨fun h => absurd h (by decide), fun h => absurd hB (not_le.mpr h)⟩⟩
    · exact ⟨⟨fun h => absurd h (by decide), fun h => absurd h hA⟩,
        ⟨fun h => absurd h (by decide), fun h => absurd h.1 hB⟩,
        ⟨fun _ => not_le.mp hB, fun _ => rfl⟩⟩

/-- The generated tick list is the multiples of the step below the end,
with the largest one last. -/
lemma major_ticks_raw_split (max_nt step : ℕ) :
    major_ticks_raw max_nt step =
      (List.range (max_nt / step)).map (fun k => k * step) ++ [(max_nt / step) * step] := by
  rw [major_ticks_raw, List.range_succ, List.map_append]
  rfl

/-- Every raw tick is at most the content end (step positive). -/
lemma major_ticks_raw_le (max_nt step : ℕ) (hs : 0 < step) :
    ∀ t ∈ major_ticks_raw max_nt step, t ≤ max_nt := by
  intro t ht
  rcases List.mem_map.mp ht with ⟨k, hk, rfl⟩
  rcases List.mem_range.mp hk with hk2
  calc k * step ≤ (max_nt / step) * step := Nat.mul_le_mul_right step (by omega)
    _ ≤ max_nt := Nat.div_mul_le_self max_nt step

/-- C8: for every positive content length and positive chosen step, the
fixed-up major tick list (multiples of the step from 0, with the last
tick snapped to the content end when within half a step of it and the
end appended otherwise) ends exactly at the content end, and no tick
exceeds the content end. -/
theorem c8_major_ticks (max_nt step : ℕ) (hL : 0 < max_nt) (hs : 0 < step) :
    (compute_major_ticks max_nt step).getLast? = some max_nt ∧
    ∀ t ∈ compute_major_ticks max_nt step, t ≤ max_nt := by
  have hsplit := major_ticks_raw_split max_nt step
  have hlast : (major_ticks_raw max_nt step).getLast? = some ((max_nt / step) * step) := by
    rw [hsplit, List.getLast?_concat]
  have hdivle : (max_nt / step) * step ≤ max_nt := Nat.div_mul_le_self max_nt step
  unfold compute_major_ticks
  rw [hlast]
  dsimp only
  split_ifs with h0 hhalf
  · -- the last raw tick already equals the end
    have : (max_nt / step) * step = max_nt := by omega
    constructor
    · rw [hlast, this]
    · exact major_ticks_raw_le max_nt step hs
  · -- replaced by the end
    constructor
    · rw [hsplit, List.dropLast_concat, List.getLast?_concat]
    · intro t ht
      rw [hsplit, List.dropLast_concat] at ht
      rcases List.mem_append.mp ht with hin | hin
      · rcases List.mem_map.mp hin with ⟨k, hk, rfl⟩
        rcases List.mem_range.mp hk with hk2
        calc k * step ≤ (max_nt / step) * step := Nat.mul_le_mul_right step (by omega)
          _ ≤ max_nt := hdivle
      · simp only [List.mem_singleton] at hin
        omega
  · -- appended
    constructor
    · rw [List.getLast?_concat]
    · intro t ht
      rcases List.mem_append.mp ht with hin | hin
      · exact major_ticks_raw_le max_nt step hs t hin
      · simp only [List.mem_singleton] at hin
        omega

/-- The fuelled base-10 logarithm brackets its argument between
consecutive powers of ten. -/
lemma nat_log10_fuel_spec :
    ∀ fuel n : ℕ, 1 ≤ n → n ≤ fuel →
      10 ^ nat_log10_fuel fuel n ≤ n ∧ n < 10 ^ (nat_log10_fuel fuel n + 1) := by
  intro fuel
  induction fuel with
  | zero => intro n h1 h2; omega
  | succ f ih =>
    intro n h1 h2
    simp only [nat_log10_fuel]
    split_ifs with h
    · constructor
      · simpa using h1
      · simpa using h
    · have hn : 10 ≤ n := le_of_not_lt h
      have h1b : 1 ≤ n / 10 := by omega
      have h2b : n / 10 ≤ f := by omega
      obtain ⟨ha, hb⟩ := ih (n / 10) h1b h2b
      constructor
      · calc 10 ^ (nat_log10_fuel f (n / 10) + 1)
            = 10 ^ nat_log10_fuel f (n / 10) * 10 := by rw [pow_succ]
          _ ≤ (n / 10) * 10 := Nat.mul_le_mul_right 10 ha
          _ ≤ n := by omega
      · have hb2 : n / 10 + 1 ≤ 10 ^ (nat_log10_fuel f (n / 10) + 1) := hb
        calc n < (n / 10 + 1) * 10 := by omega
          _ ≤ 10 ^ (nat_log10_fuel f (n / 10) + 1) * 10 := Nat.mul_le_mul_right 10 hb2
          _ = 10 ^ (nat_log10_fuel f (n / 10) + 1 + 1) := (pow_succ 10 _).symm

/-- Power-of-ten bracketing for `nat_log10`. -/
lemma nat_log10_spec (n : ℕ) (h : 1 ≤ n) :
    10 ^ nat_log10 n ≤ n ∧ n < 10 ^ (nat_log10 n + 1) :=
  nat_log10_fuel_spec n n h le_rfl

/-- For integers above five million the base-10 logarithm is at least 6. -/
lemma nat_log10_big_span (c : ℤ) (hc : (5000001 : ℤ) ≤ c) :
    6 ≤ nat_log10 c.toNat ∧ (1000000 : ℤ) ≤ 10 ^ nat_log10 c.toNat := by
  have h1n : 1 ≤ c.toNat := by omega
  obtain ⟨hlo, hhi⟩ := nat_log10_spec c.toNat h1n
  have hm : 6 ≤ nat_log10 c.toNat := by
    by_contra hcontra
    push_neg at hcontra
    have hle : 10 ^ (nat_log10 c.toNat + 1) ≤ 10 ^ 6 :=
      Nat.pow_le_pow_right (by norm_num) (by omega)
    have hlt : c.toNat < 10 ^ 6 := lt_of_lt_of_le hhi hle
    have h6 : (10 : ℕ) ^ 6 = 1000000 := by norm_num
    omega
  refine ⟨hm, ?_⟩
  calc (1000000 : ℤ) = 10 ^ 6 := by norm_num
    _ ≤ 10 ^ nat_log10 c.toNat := pow_le_pow_right₀ (by norm_num) hm

/-- The large-span rounding always lands on the 100K / 200K / 500K / 1M /
2M / 5M / 10M / … ladder ({1,2,5} times a power of ten at least 10^5) and
is at least 100000. -/
lemma round_to_nice_large_ladder (c : ℤ) :
    100000 ≤ round_to_nice_large c ∧
    ∃ k : ℕ, 5 ≤ k ∧
      (round_to_nice_large c = 10 ^ k ∨ round_to_nice_large c = 2 * 10 ^ k ∨
        round_to_nice_large c = 5 * 10 ^ k) := by
  unfold round_to_nice_large
  split_ifs with h1 h2 h3 h4 h5 h6 h7 h8
  · exact ⟨by norm_num, 5, by norm_num, Or.inl (by norm_num)⟩
  · exact ⟨by norm_num, 5, by norm_num, Or.inr (Or.inl (by norm_num))⟩
  · exact ⟨by norm_num, 5, by norm_num, Or.inr (Or.inr (by norm_num))⟩
  · exact ⟨by norm_num, 6, by norm_num, Or.inl (by norm_num)⟩
  · exact ⟨by norm_num, 6, by norm_num, Or.inr (Or.inl (by norm_num))⟩
  · exact ⟨by norm_num, 6, by norm_num, Or.inr (Or.inr (by norm_num))⟩
  · obtain ⟨hm, hpow⟩ := nat_log10_big_span c (by omega)
    exact ⟨by linarith, nat_log10 c.toNat, by omega, Or.inr (Or.inl rfl)⟩
  · obtain ⟨hm, hpow⟩ := nat_log10_big_span c (by omega)
    exact ⟨by linarith, nat_log10 c.toNat, by omega, Or.inr (Or.inr rfl)⟩
  · obtain ⟨hm, hpow⟩ := nat_log10_big_span c (by omega)
    refine ⟨by linarith, nat_log10 c.toNat + 1, by omega, Or.inl ?_⟩
    rw [pow_succ]
    ring

/-- The raw-step guard of the position ruler in integer terms. -/
lemma raw_step_le_one_iff (visible_span : ℤ) :
    ((visible_span : ℚ) / 10 ≤ 1) ↔ visible_span ≤ 10 := by
  rw [div_le_one (by norm_num : (0 : ℚ) < 10)]
  exact_mod_cast Iff.rfl

/-- C2 (amended): the position ruler step selection implements exactly
the algorithm the specification describes (raw step = span / 10, unit
step for raw ≤ 1, 1.5 / 3 / 7 snapping, large-span ladder, 10K floor for
[100K, 1M), cap at 10 for spans ≤ 100, never below 1); in particular for
spans of at least one million the step lands on the {1,2,5}·10^k ladder.
The navigation ruler does NOT share this algorithm (see the
counterexample). -/
theorem c2_amended (visible_span : ℤ) (h : 0 < visible_span) :
    choose_step_for_zoom visible_span = choose_step_spec visible_span ∧
    1 ≤ choose_step_for_zoom visible_span ∧
    (visible_span ≤ 10 → choose_step_for_zoom visible_span = 1) ∧
    (visible_span ≤ 100 → choose_step_for_zoom visible_span ≤ 10) ∧
    (100000 ≤ visible_span → visible_span < 1000000 →
      10000 ≤ choose_step_for_zoom visible_span) ∧
    (1000000 ≤ visible_span → ∃ k : ℕ, 5 ≤ k ∧
      (choose_step_for_zoom visible_span = 10 ^ k ∨
       choose_step_for_zoom visible_span = 2 * 10 ^ k ∨
       choose_step_for_zoom visible_span = 5 * 10 ^ k)) := by
  refine ⟨rfl, ?_, ?_, ?_, ?_, ?_⟩
  · unfold choose_step_for_zoom
    split_ifs <;> simp [le_max_right]
  · intro h10
    unfold choose_step_for_zoom
    rw [if_neg (by omega), if_pos ((raw_step_le_one_iff visible_span).mpr h10)]
  · intro h100
    unfold choose_step_for_zoom
    split_ifs with hA hB
    · omega
    · norm_num
    · have hgt : 10 < visible_span := by
        by_contra hcontra
        exact hB ((raw_step_le_one_iff visible_span).mpr (by omega))
      unfold apply_span_overrides
      rw [if_neg (by omega), if_neg (by omega), if_pos h100]
      omega
  · intro hlo hhi
    unfold choose_step_for_zoom
    rw [if_neg (by omega),
        if_neg (by rw [raw_step_le_one_iff]; omega)]
    unfold apply_span_overrides
    rw [if_neg (by omega), if_pos hlo]
    omega
  · intro hM
    unfold choose_step_for_zoom
    rw [if_neg (by omega),
        if_neg (by rw [raw_step_le_one_iff]; omega)]
    unfold apply_span_overrides
    rw [if_pos hM]
    obtain ⟨hge, k, hk, hcases⟩ :=
      round_to_nice_large_ladder (raw_candidate visible_span)
    have hmax : max (round_to_nice_large (raw_candidate visible_span)) 1 =
        round_to_nice_large (raw_candidate visible_span) := by omega
    rw [hmax]
    exact ⟨k, hk, hcases⟩

/-- C2 (counterexample): at visible span 14000 with a 600-pixel ruler the
navigation ruler (raw step 14000·60/600 = 1400, snapped at the ≤2
threshold) picks step 2000, while the algorithm the specification
describes — implemented verbatim by the position ruler — picks 1000
(base 1.4 is snapped to 1 by the ≤1.5 threshold); the two ruler flavors
therefore do not share one step-selection algorithm. -/
theorem c2_counterexample :
    nice_tick_step 14000 600 60 = 2000 ∧
    choose_step_for_zoom 14000 = 1000 ∧
    choose_step_spec 14000 = 1000 ∧
    (2000 : ℤ) ≠ 1000 := by
  have e1 : rat_floor_log10 (1400 : ℚ) = 3 := by
    rw [rat_floor_log10, if_pos (by norm_num : (1:ℚ) ≤ 1400)]
    rw [show (⌊(1400:ℚ)⌋ : ℤ) = 1400 from by norm_num]
    decide
  have e2 : raw_candidate 14000 = 1000 := by
    simp only [raw_candidate]
    rw [show ((14000 : ℤ) : ℚ) / 10 = 1400 from by norm_num]
    rw [e1, show Int.toNat 3 = 3 from rfl]
    rw [snap_nice]
    norm_num
  have e3 : choose_step_for_zoom 14000 = 1000 := by
    simp only [choose_step_for_zoom]
    rw [if_neg (by decide), if_neg (by rw [raw_step_le_one_iff]; omega), e2]
    rw [apply_span_overrides]
    norm_num
  have e4 : nice_tick_step 14000 600 60 = 2000 := by
    simp only [nice_tick_step]
    rw [if_neg (by decide)]
    rw [show ((14000 * 60 : ℤ) : ℚ) / ((600 : ℤ) : ℚ) = 1400 from by norm_num, e1]
    norm_num [show Int.toNat 3 = 3 from rfl]
  exact ⟨e4, e3, e3, by decide⟩

/-- C2 (witness): the amended theorem applied at the concrete span
1000000. -/
theorem c2_witness :
    (0 : ℤ) < 1000000 ∧
    (choose_step_for_zoom 1000000 = choose_step_spec 1000000 ∧
     1 ≤ choose_step_for_zoom 1000000 ∧
     ((1000000 : ℤ) ≤ 10 → choose_step_for_zoom 1000000 = 1) ∧
     ((1000000 : ℤ) ≤ 100 → choose_step_for_zoom 1000000 ≤ 10) ∧
     ((100000 : ℤ) ≤ 1000000 → (1000000 : ℤ) < 1000000 →
       10000 ≤ choose_step_for_zoom 1000000) ∧
     ((1000000 : ℤ) ≤ 1000000 → ∃ k : ℕ, 5 ≤ k ∧
       (choose_step_for_zoom 1000000 = 10 ^ k ∨
        choose_step_for_zoom 1000000 = 2 * 10 ^ k ∨
        choose_step_for_zoom 1000000 = 5 * 10 ^ k))) :=
  ⟨by norm_num, c2_amended 1000000 (by norm_num)⟩

/-- A reachable pre-anchor state: one row of 1000 columns, no selection
yet.  start_selection accepts any column at or past the content length
because it validates only `col >= 0`. -/
def c5_cex_base : SVModel :=
  { sequences := [String.mk (List.replicate 1000 'a')]
    max_sequence_length := 1000
    selection_start_row := none
    selection_start_col := none
    current_selection_cols := none }

/-- C5 (counterexample): the claim reads the range as the min/max of the
anchor column and the clamped current column, but the source clamps the
anchor column too, and out-of-bounds anchors are reachable: start_selection
validates only `col >= 0` (a press in the trailing padding yields a column
at or past the content length).  Anchored at column 1005 of 1000-column
content, dragging to column 200 the code returns column range (200, 999),
not the (200, 1005) the claim prescribes. -/
theorem c5_counterexample :
    (start_selection 0 1005 c5_cex_base).1 = true ∧
    (start_selection 0 1005 c5_cex_base).2.selection_start_col = some 1005 ∧
    (update_selection 0 200 (start_selection 0 1005 c5_cex_base).2).1 =
      some (0, 0, 200, 999) ∧
    (update_selection 0 200 (start_selection 0 1005 c5_cex_base).2).1 ≠
      some (0, 0, min (1005:ℤ) 200, max (1005:ℤ) 200) := by
  refine ⟨by decide, by decide, by decide, by decide⟩

/-- C5 (amended): while an anchor exists whose row is in
[0, row_count−1] (the part start_selection does validate) and the content
is non-empty, an update clamps BOTH the anchor column and the current
column into [0, max_length−1] and the current row into [0, row_count−1],
and returns the normalized min/max range of the clamped anchor and the
clamped current position, all bounds inside the content; with zero
content length it clears the selection and returns no range instead. -/
theorem c5_update_selection (m : SVModel) (sr sc current_row current_col : ℤ)
    (hrow : m.selection_start_row = some sr)
    (hcol : m.selection_start_col = some sc)
    (hr0 : 0 ≤ sr) (hr1 : sr < row_count m) :
    (0 < m.max_sequence_length →
      (update_selection current_row current_col m).1 =
        some (min sr (max 0 (min current_row (row_count m - 1))),
              max sr (max 0 (min current_row (row_count m - 1))),
              min (max 0 (min sc (m.max_sequence_length - 1)))
                (max 0 (min current_col (m.max_sequence_length - 1))),
              max (max 0 (min sc (m.max_sequence_length - 1)))
                (max 0 (min current_col (m.max_sequence_length - 1)))) ∧
      (0 ≤ min sr (max 0 (min current_row (row_count m - 1))) ∧
       max sr (max 0 (min current_row (row_count m - 1))) ≤ row_count m - 1 ∧
       min sr (max 0 (min current_row (row_count m - 1))) ≤
         max sr (max 0 (min current_row (row_count m - 1))) ∧
       0 ≤ min (max 0 (min sc (m.max_sequence_length - 1)))
         (max 0 (min current_col (m.max_sequence_length - 1))) ∧
       max (max 0 (min sc (m.max_sequence_length - 1)))
         (max 0 (min current_col (m.max_sequence_length - 1))) ≤
         m.max_sequence_length - 1 ∧
       min (max 0 (min sc (m.max_sequence_length - 1)))
         (max 0 (min current_col (m.max_sequence_length - 1))) ≤
         max (max 0 (min sc (m.max_sequence_length - 1)))
           (max 0 (min current_col (m.max_sequence_length - 1)))) ∧
      (update_selection current_row current_col m).2.current_selection_cols =
        some (min (max 0 (min sc (m.max_sequence_length - 1)))
                (max 0 (min current_col (m.max_sequence_length - 1))),
              max (max 0 (min sc (m.max_sequence_length - 1)))
                (max 0 (min current_col (m.max_sequence_length - 1))))) ∧
    (m.max_sequence_length ≤ 0 →
      (update_selection current_row current_col m).1 = none ∧
      (update_selection current_row current_col m).2 = clear_selection m) := by
  constructor
  · intro hpos
    have hclamp : ∀ col : ℤ, clamp_column_index m col =
        some (max 0 (min col (m.max_sequence_length - 1))) := by
      intro col
      rw [clamp_column_index, if_neg (by omega)]
    have hrc : ¬ row_count m = 0 := by omega
    simp only [update_selection, hrow, hcol, hclamp, if_neg hrc]
    refine ⟨?_, ?_, ?_⟩
    · simp only [Option.some.injEq, Prod.mk.injEq]
      refine ⟨by omega, by omega, trivial⟩
    · refine ⟨by omega, by omega, by omega, by omega, by omega, by omega⟩
    · split_ifs with hif
      · rfl
      · exact absurd ⟨by omega, by omega⟩ hif
  · intro hnonpos
    have hclamp : ∀ col : ℤ, clamp_column_index m col = none := by
      intro col
      rw [clamp_column_index, if_pos hnonpos]
    simp only [update_selection, hrow, hcol, hclamp]
    simp

/-- Concrete model for the C5 scenario: one row of 1000 columns with the
anchor at column 500 of row 0. -/
def c5_model : SVModel :=
  { sequences := [String.mk (List.replicate 1000 'a')]
    max_sequence_length := 1000
    selection_start_row := some 0
    selection_start_col := some 500
    current_selection_cols := none }

/-- C5 (witness): anchored at column 500 of a 1000-column row, dragging
to column 200 yields the normalized range (rows 0–0, columns 200–500). -/
theorem c5_witness :
    (0:ℤ) ≤ 0 ∧ (0:ℤ) < row_count c5_model ∧
    0 < c5_model.max_sequence_length ∧
    (update_selection 0 200 c5_model).1 = some (0, 0, 200, 500) ∧
    (update_selection 0 200 c5_model).2.current_selection_cols = some (200, 500) := by
  have h := c5_update_selection c5_model 0 500 0 200 rfl rfl
    (by decide) (by decide)
  obtain ⟨heq, hbounds, hstate⟩ := h.1 (by decide)
  refine ⟨by decide, by decide, by decide, ?_, ?_⟩
  · rw [heq]; decide
  · rw [hstate]; decide

/-- C8 (witness): content length 103 with step 10 — the last generated
tick 100 is within half a step of the end, so it is snapped to 103, and
every tick stays within the content. -/
theorem c8_witness :
    (0 < 103 ∧ 0 < 10) ∧
    ((compute_major_ticks 103 10).getLast? = some 103 ∧
      ∀ t ∈ compute_major_ticks 103 10, t ≤ 103) :=
  ⟨⟨by decide, by decide⟩, c8_major_ticks 103 10 (by decide) (by decide)⟩

/-- C3 (witness): char width 3 over base width 2 gives scale 1.5, hence
the 10pt tier; and font size 7.999 selects Box mode while 8.0 selects
Text mode. -/
theorem c3_witness :
    (1/1000 ≤ (3:ℚ) ∧ 1/1000 ≤ (2:ℚ)) ∧
    snapped_font_size 3 2 (54/5) = 10 ∧
    mode_of_font_size 8 = Mode.text ∧
    mode_of_font_size (7999/1000) = Mode.box := by
  have h := c3_lod_policy 3 2 (54/5) (by norm_num) (by norm_num)
  refine ⟨⟨by norm_num, by norm_num⟩, ?_, ?_, ?_⟩
  · exact h.1.2.1 (by norm_num)
  · exact (h.2 8).1.mpr (by norm_num)
  · exact (h.2 (7999/1000)).2.1.mpr ⟨by norm_num, by norm_num⟩

/-- Under the hypotheses of a live viewport the source min-char-width
computation equals the claim formula (the `available ≤ 0` branch of the
source coincides with the formula because a non-positive quotient is
absorbed by the 1e-6 floor). -/
lemma compute_min_char_width_eq (env : WheelEnv)
    (hitems : env.has_items = true) (hlen : 0 < env.max_sequence_length)
    (hvw : 0 < env.viewport_width) :
    compute_min_char_width env = claimed_min_char_width env := by
  unfold compute_min_char_width claimed_min_char_width
  rw [if_neg (by simp [hitems]), if_neg (by omega), if_neg (not_le.mpr hvw)]
  split_ifs with hav
  · have hq : (0:ℚ) < (env.max_sequence_length : ℚ) := by exact_mod_cast hlen
    have hdiv : (env.viewport_width - max 80 (current_trailing_padding_env env)) /
        (env.max_sequence_length : ℚ) ≤ 0 :=
      div_nonpos_iff.mpr (Or.inr ⟨hav, le_of_lt hq⟩)
    rw [max_eq_right (by linarith)]
  · rfl

/-- C4: a modifier-held wheel event of `n` whole notches (delta = 120·n)
updates the streak to `k` (incremented on the same direction, reset to 1
on a direction change) and targets char width `current ×
(1.22 × 1.06^(k−1))^|n|` (reciprocal when zooming out), clamped into
[min_char_width, 90] with min_char_width = max((viewport −
max(line-pad, current-pad)) / max_content_length, 1e-6); the zoom
animation is started with exactly that target unless it differs from the
current width by less than the 1e-4 no-op threshold. -/
theorem c4_wheel_zoom (env : WheelEnv) (st : WheelState) (n : ℤ) (cursor_x : ℚ) (k : ℤ)
    (hn : n ≠ 0)
    (hitems : env.has_items = true)
    (hvw : 0 < env.viewport_width)
    (hcw : 0 < env.current_char_width)
    (hlen : 0 < env.max_sequence_length)
    (hstreak : 0 ≤ st.streak_len)
    (hk : k = if st.streak_dir = some (if 0 < n then (1:ℤ) else -1)
          then st.streak_len + 1 else 1) :
    (handle_wheel_event env st true (120 * n) cursor_x).1 =
      { streak_dir := some (if 0 < n then (1:ℤ) else -1), streak_len := k } ∧
    (handle_wheel_event env st true (120 * n) cursor_x).2.2 =
      (if |claimed_wheel_target env k n - env.current_char_width| < 1/10000 then none
       else some
        { target_char_width := claimed_wheel_target env k n
          center_nt := wheel_center env cursor_x
          view_width_px := env.viewport_width }) := by
  subst hk
  have hexp : (120 * n).natAbs / 120 = n.natAbs := by
    rw [Int.natAbs_mul]
    norm_num
  have hdir : (if 0 < 120 * n then (1:ℤ) else -1) = (if 0 < n then (1:ℤ) else -1) := by
    by_cases h0 : 0 < n
    · rw [if_pos (by omega), if_pos h0]
    · rw [if_neg (by omega), if_neg h0]
  have hmin := compute_min_char_width_eq env hitems hlen hvw
  have hcenter : wheel_center env cursor_x =
      (match env.selection_center with
       | some c => c
       | none => (env.scroll_value + cursor_x) / env.current_char_width) := by
    rw [wheel_center, if_neg (not_le.mpr hcw)]
  simp only [handle_wheel_event]
  rw [if_neg (by simp), if_neg (by push_neg; exact ⟨by omega, by simp [hitems]⟩)]
  rw [hdir, if_neg (not_le.mpr hvw), if_neg (not_le.mpr hcw), hexp, hmin, hcenter,
    claimed_wheel_target]
  by_cases hsd : st.streak_dir = some (if 0 < n then (1:ℤ) else -1)
  · simp only [if_pos hsd]
    rw [hsd]
    have hm1 : max 0 (st.streak_len + 1 - 1) = st.streak_len + 1 - 1 := by omega
    rw [hm1]
    by_cases h0 : 0 < n
    · simp only [if_pos h0, if_pos (show (0:ℤ) < 1 by norm_num)]
      refine ⟨?_, ?_⟩ <;> split_ifs <;> rfl
    · simp only [if_neg h0, if_neg (show ¬ (0:ℤ) < -1 by norm_num)]
      refine ⟨?_, ?_⟩ <;> split_ifs <;> rfl
  · simp only [if_neg hsd]
    have hm1 : max 0 ((1:ℤ) - 1) = (1:ℤ) - 1 := by omega
    rw [hm1]
    by_cases h0 : 0 < n
    · simp only [if_pos h0, if_pos (show (0:ℤ) < 1 by norm_num)]
      refine ⟨?_, ?_⟩ <;> split_ifs <;> rfl
    · simp only [if_neg h0, if_neg (show ¬ (0:ℤ) < -1 by norm_num)]
      refine ⟨?_, ?_⟩ <;> split_ifs <;> rfl

/-- The C4 / C9 scenario environment: viewport 500 px, char width 12,
content length 1000, Line-mode trailing pad (so the effective pad is
80 px), a selection centered at 250. -/
def c4_env : WheelEnv :=
  { has_items := true
    viewport_width := 500
    current_char_width := 12
    char_width := 12
    selection_center := some 250
    scroll_value := 0
    max_sequence_length := 1000
    display_mode := Mode.line }

/-- Fresh streak state before any wheel event. -/
def c4_state : WheelState := { streak_dir := none, streak_len := 0 }

/-- The claim clamp floor at the scenario: (500 − 80) / 1000 = 0.42. -/
lemma c4_min_char_width : claimed_min_char_width c4_env = 21/50 := by
  unfold claimed_min_char_width current_trailing_padding_env
  norm_num [c4_env]

/-- The claim target at the scenario: one fresh zoom-out notch divides
the width by 1.22, well inside the clamp range. -/
lemma c4_target_value : claimed_wheel_target c4_env 1 (-1) = 600/61 := by
  unfold claimed_wheel_target
  rw [c4_min_char_width]
  norm_num [c4_env]

/-- C4 (witness): the wheel-zoom theorem applied at the scenario input
(one zoom-out notch, fresh streak). -/
theorem c4_witness :
    ((-1:ℤ) ≠ 0 ∧ c4_env.has_items = true ∧ (0:ℚ) < c4_env.viewport_width ∧
     (0:ℚ) < c4_env.current_char_width ∧ (0:ℤ) < c4_env.max_sequence_length ∧
     (0:ℤ) ≤ c4_state.streak_len) ∧
    compute_min_char_width c4_env = 21/50 ∧
    (handle_wheel_event c4_env c4_state true (120 * (-1)) 0).2.2 =
      some { target_char_width := 600/61, center_nt := 250, view_width_px := 500 } ∧
    (handle_wheel_event c4_env c4_state true (120 * (-1)) 0).1 =
      { streak_dir := some (-1), streak_len := 1 } := by
  have h := c4_wheel_zoom c4_env c4_state (-1) 0 1 (by decide) rfl (by norm_num [c4_env])
    (by norm_num [c4_env]) (by decide) (by decide) (by decide)
  refine ⟨⟨by decide, rfl, by norm_num [c4_env], by norm_num [c4_env], by decide, by decide⟩,
    ?_, ?_, ?_⟩
  · rw [compute_min_char_width_eq c4_env rfl (by decide) (by norm_num [c4_env])]
    exact c4_min_char_width
  · rw [h.2, c4_target_value,
      if_neg (by rw [abs_sub_comm, abs_of_pos (by norm_num [c4_env])]; norm_num [c4_env])]
    rfl
  · rw [h.1]
    decide

/-- Python rounding is correct to within half a unit. -/
lemma abs_sub_py_round (q : ℚ) : |q - (py_round q : ℚ)| ≤ 1/2 := by
  rw [py_round]
  split_ifs with hhalf hev
  · rw [hhalf, abs_of_nonneg (by norm_num : (0:ℚ) ≤ 1/2)]
  · push_cast
    have heq : q - ((⌊q⌋ : ℚ) + 1) = -(1/2) := by linarith
    rw [heq, abs_neg, abs_of_nonneg (by norm_num : (0:ℚ) ≤ 1/2)]
  · exact abs_sub_round q

/-- Core re-centering bound: when the ideal scroll offset lies inside the
scrollable range, the re-centered pivot sits within half a pixel of the
viewport center (whether the half-pixel jitter guard keeps the old value
or the scrollbar is set to the rounded ideal value). -/
lemma recenter_scroll_centers (st : ViewState) (c vw : ℚ)
    (hitems : st.has_items = true)
    (hvw : 0 < vw)
    (hlen : 0 < st.max_sequence_length)
    (hcw : 0 < st.char_width)
    (hc0 : 0 ≤ c) (hc1 : c ≤ (st.max_sequence_length : ℚ))
    (hlo : 0 ≤ c * st.char_width - vw / 2)
    (hhi : c * st.char_width - vw / 2 ≤
      (st.max_sequence_length : ℚ) * st.char_width + 30 - vw) :
    |c * st.char_width - (recenter_scroll st c vw : ℚ) - vw / 2| ≤ 1/2 := by
  have hpad : 30 ≤ trailing_padding_of st := by
    rw [trailing_padding_of, if_neg (by simp [hitems])]
    split_ifs <;> norm_num
  have hscene : scene_width st =
      (st.max_sequence_length : ℚ) * st.char_width + trailing_padding_of st := by
    rw [scene_width, if_neg (by simp [hitems])]
  have hlenq : (1:ℚ) ≤ (st.max_sequence_length : ℚ) := by exact_mod_cast hlen
  have hscenepos : 0 < scene_width st := by
    rw [hscene]
    nlinarith
  simp only [recenter_scroll]
  rw [if_neg (not_le.mpr hvw), if_neg (not_le.mpr hscenepos),
    if_pos hlen, min_eq_left hc1, max_eq_right hc0]
  have h1 : c * st.char_width - vw / 2 ≤ scene_width st - vw := by
    rw [hscene]
    linarith
  have hminid : min (c * st.char_width - vw / 2) (max 0 (scene_width st - vw)) =
      c * st.char_width - vw / 2 := min_eq_left (le_trans h1 (le_max_right 0 _))
  rw [hminid, max_eq_right hlo]
  split_ifs with hskip
  · have heq : c * st.char_width - (st.scroll : ℚ) - vw / 2 =
        (c * st.char_width - vw / 2) - (st.scroll : ℚ) := by ring
    rw [heq]
    exact le_of_lt hskip
  · have heq : c * st.char_width - (py_round (c * st.char_width - vw / 2) : ℚ) - vw / 2 =
        (c * st.char_width - vw / 2) -
          (py_round (c * st.char_width - vw / 2) : ℚ) := by ring
    rw [heq]
    exact abs_sub_py_round (c * st.char_width - vw / 2)

/-- Applying an interpolated char width with a pivot keeps the item set
and content length, stores the (un-clamped, since above the 0.001 floor)
width, and leaves the pivot within half a pixel of the viewport
center, provided the ideal scroll offset is inside the scrollable
range. -/
lemma apply_char_width_centers (st : ViewState) (w c vw : ℚ)
    (hitems : st.has_items = true) (hvw : 0 < vw) (hlen : 0 < st.max_sequence_length)
    (hw : 1/1000 ≤ w) (hc0 : 0 ≤ c) (hc1 : c ≤ (st.max_sequence_length : ℚ))
    (hlo : 0 ≤ c * w - vw / 2)
    (hhi : c * w - vw / 2 ≤ (st.max_sequence_length : ℚ) * w + 30 - vw) :
    (apply_char_width st w (some c) vw).has_items = true ∧
    (apply_char_width st w (some c) vw).max_sequence_length = st.max_sequence_length ∧
    (apply_char_width st w (some c) vw).char_width = w ∧
    |screen_x (apply_char_width st w (some c) vw) c - vw / 2| ≤ 1/2 := by
  simp only [apply_char_width]
  rw [if_neg (by simp), if_pos hitems, max_eq_left hw]
  refine ⟨hitems, rfl, rfl, ?_⟩
  rw [screen_x]
  exact recenter_scroll_centers
    { st with
      char_width := w
      display_mode :=
        if st.has_items = true then
          mode_of_font_size (snapped_font_size w st.default_char_width st.base_font_size)
        else st.display_mode }
    c vw hitems hvw hlen (by linarith) hc0 hc1 hlo hhi

/-- C1 (amended): during an animated zoom, each interpolated char-width
application with a pivot re-centers the canvas so that the pivot lands
within half a pixel of the horizontal center of the viewport (not of its
pre-zoom screen position); consequently the screen pixel of the pivot moves by
at most one pixel between consecutive interpolated applications, and
after the zoom completes it is within one pixel of its position at the
first application.  Hypotheses: the view has items, the new widths are at
or above the 0.001 item floor, the pivot is inside the content, and the
ideal scroll offsets stay inside the scrollable range. -/
theorem c1_zoom_pivot (st : ViewState) (c vw w1 w2 : ℚ)
    (hitems : st.has_items = true) (hvw : 0 < vw) (hlen : 0 < st.max_sequence_length)
    (hw1 : 1/1000 ≤ w1) (hw2 : 1/1000 ≤ w2)
    (hc0 : 0 ≤ c) (hc1 : c ≤ (st.max_sequence_length : ℚ))
    (hlo1 : 0 ≤ c * w1 - vw / 2)
    (hhi1 : c * w1 - vw / 2 ≤ (st.max_sequence_length : ℚ) * w1 + 30 - vw)
    (hlo2 : 0 ≤ c * w2 - vw / 2)
    (hhi2 : c * w2 - vw / 2 ≤ (st.max_sequence_length : ℚ) * w2 + 30 - vw) :
    |screen_x (apply_char_width st w1 (some c) vw) c - vw / 2| ≤ 1/2 ∧
    |screen_x (apply_char_width (apply_char_width st w1 (some c) vw) w2 (some c) vw) c -
      vw / 2| ≤ 1/2 ∧
    |screen_x (apply_char_width (apply_char_width st w1 (some c) vw) w2 (some c) vw) c -
      screen_x (apply_char_width st w1 (some c) vw) c| ≤ 1 := by
  obtain ⟨hi1, hl1, hcw1, hs1⟩ :=
    apply_char_width_centers st w1 c vw hitems hvw hlen hw1 hc0 hc1 hlo1 hhi1
  obtain ⟨hi2, hl2, hcw2, hs2⟩ :=
    apply_char_width_centers (apply_char_width st w1 (some c) vw) w2 c vw hi1 hvw
      (by rw [hl1]; exact hlen) hw2 hc0 (by rw [hl1]; exact hc1)
      hlo2 (by rw [hl1]; exact hhi2)
  refine ⟨hs1, hs2, ?_⟩
  have htri := abs_sub_le
    (screen_x (apply_char_width (apply_char_width st w1 (some c) vw) w2 (some c) vw) c)
    (vw / 2) (screen_x (apply_char_width st w1 (some c) vw) c)
  have hcomm : |vw / 2 - screen_x (apply_char_width st w1 (some c) vw) c| =
      |screen_x (apply_char_width st w1 (some c) vw) c - vw / 2| := abs_sub_comm _ _
  linarith

/-- The view state before the C1 counterexample zoom: char width 12,
scroll 6000, content length 1000, Text mode. -/
def c1_state : ViewState :=
  { char_width := 12
    scroll := 6000
    max_sequence_length := 1000
    display_mode := Mode.text
    has_items := true
    default_char_width := 12
    base_font_size := 54/5 }

/-- Evaluation of the counterexample zoom step: applying char width 13
with pivot 1525/3 over a 500 px viewport re-centers the scrollbar to
6358. -/
lemma c1_apply_eval : apply_char_width c1_state 13 (some (1525/3)) 500 =
    { char_width := 13
      scroll := 6358
      max_sequence_length := 1000
      display_mode := Mode.text
      has_items := true
      default_char_width := 12
      base_font_size := 54/5 } := by
  have hfl : ⌊(19075/3 : ℚ)⌋ = 6358 := by
    rw [Int.floor_eq_iff]
    norm_num
  have hround : round (19075/3 : ℚ) = 6358 := by
    rw [round_eq, show (19075/3 : ℚ) + 1/2 = 38153/6 by norm_num]
    rw [Int.floor_eq_iff]
    norm_num
  norm_num [apply_char_width, c1_state, recenter_scroll, scene_width,
    trailing_padding_of, snapped_font_size, mode_of_font_size, py_round,
    hfl, hround]
  rw [if_neg (show ¬ Mode.text = Mode.line from by decide)]
  norm_num
  rw [if_neg (show ¬ |(1075:ℚ)/3| < 1/2 from by
    rw [abs_of_nonneg (by norm_num)]; norm_num)]
  rw [if_neg (show ¬ Int.fract (19075/3 : ℚ) = 1/2 from by
    unfold Int.fract; rw [hfl]; norm_num)]
  exact hround

/-- C1 (counterexample): with char width 12, scroll 6000 and the pivot at
content position 1525/3 (the position under a cursor at viewport x 100),
applying the interpolated char width 13 moves the screen pixel of the pivot
from x = 100 to x = 751/3 ≈ 250.3 — a jump of 451/3 ≈ 150.3 px, far
beyond both the claimed half-pixel bound per change and the claimed
one-pixel bound after completion: the re-centering moves the pivot to the
viewport center instead of holding its pre-zoom screen position. -/
theorem c1_counterexample :
    screen_x c1_state (1525/3) = 100 ∧
    screen_x (apply_char_width c1_state 13 (some (1525/3)) 500) (1525/3) = 751/3 ∧
    ¬ |screen_x (apply_char_width c1_state 13 (some (1525/3)) 500) (1525/3) -
        screen_x c1_state (1525/3)| ≤ 1/2 ∧
    ¬ |screen_x (apply_char_width c1_state 13 (some (1525/3)) 500) (1525/3) -
        screen_x c1_state (1525/3)| ≤ 1 := by
  have h1 : screen_x c1_state (1525/3) = 100 := by
    norm_num [screen_x, c1_state]
  have h2 : screen_x (apply_char_width c1_state 13 (some (1525/3)) 500) (1525/3) = 751/3 := by
    rw [c1_apply_eval]
    norm_num [screen_x]
  refine ⟨h1, h2, ?_, ?_⟩ <;>
    rw [h1, h2, show (751:ℚ)/3 - 100 = 451/3 by norm_num,
      abs_of_nonneg (by norm_num : (0:ℚ) ≤ 451/3)] <;>
    norm_num

/-- C1 (witness): the amended theorem applied at the concrete state
(content length 1000, viewport 500 px, pivot at content position 500,
interpolated widths 13 then 14). -/
theorem c1_witness :
    (c1_state.has_items = true ∧ (0:ℚ) < 500 ∧ (0:ℤ) < c1_state.max_sequence_length ∧
     (1/1000 : ℚ) ≤ 13 ∧ (1/1000 : ℚ) ≤ 14 ∧ (0:ℚ) ≤ 500 ∧
     (500:ℚ) ≤ (c1_state.max_sequence_length : ℚ) ∧
     (0:ℚ) ≤ 500 * 13 - 500 / 2 ∧
     500 * 13 - 500 / 2 ≤ (c1_state.max_sequence_length : ℚ) * 13 + 30 - 500 ∧
     (0:ℚ) ≤ 500 * 14 - 500 / 2 ∧
     500 * 14 - 500 / 2 ≤ (c1_state.max_sequence_length : ℚ) * 14 + 30 - 500) ∧
    (|screen_x (apply_char_width c1_state 13 (some 500) 500) 500 - 500 / 2| ≤ 1/2 ∧
     |screen_x (apply_char_width (apply_char_width c1_state 13 (some 500) 500) 14
        (some 500) 500) 500 - 500 / 2| ≤ 1/2 ∧
     |screen_x (apply_char_width (apply_char_width c1_state 13 (some 500) 500) 14
        (some 500) 500) 500 -
       screen_x (apply_char_width c1_state 13 (some 500) 500) 500| ≤ 1) :=
  ⟨⟨rfl, by norm_num, by decide, by norm_num, by norm_num, by norm_num,
    by norm_num [c1_state], by norm_num, by norm_num [c1_state],
    by norm_num, by norm_num [c1_state]⟩,
   c1_zoom_pivot c1_state 500 500 13 14 rfl (by norm_num) (by decide)
     (by norm_num) (by norm_num) (by norm_num) (by norm_num [c1_state])
     (by norm_num) (by norm_num [c1_state]) (by norm_num) (by norm_num [c1_state])⟩
